import Mathlib

/-!
Formal model of the presentation-and-synchronization core of the Vulkan
hello-triangle program (src/sources/01_VulkanTutorial/01_helloTriangle/main.cpp).

The C++ source is shallowly embedded: pure helper functions of the
HelloTriangleApplication class become Lean functions, environment inputs
(driver results, surface capabilities, window framebuffer sizes) become
explicit parameters, and the frame loop becomes a step relation on an
explicit scheduling state.  Machine-word counts are modelled as Nat; the
only place a sentinel bit pattern matters (the undefined-extent sentinel
in ChooseSwapExtent) uses the explicit constant 2^32 - 1.
-/

/-- VkExtent2D: a width/height pair (uint32 fields modelled as Nat). -/
structure Extent2D where
  width : Nat
  height : Nat
deriving DecidableEq, Repr

/-- The fields of VkSurfaceCapabilitiesKHR read by the program:
image-count limits and extent limits.  maxImageCount = 0 encodes
"no upper bound", as in Vulkan. -/
structure SurfaceCapabilities where
  minImageCount : Nat
  maxImageCount : Nat
  currentExtent : Extent2D
  minImageExtent : Extent2D
  maxImageExtent : Extent2D
deriving DecidableEq, Repr

/-- The subset of VkPresentModeKHR values the program inspects.
fifoRelaxed stands in for every mode other than mailbox, immediate and
fifo: the selection loop treats all of those identically. -/
inductive PresentMode where
  | immediate
  | mailbox
  | fifo
  | fifoRelaxed
deriving DecidableEq, Repr

/-- VkSurfaceFormatKHR: a pixel-format / color-space pair, with the two
enumerants modelled as numeric codes. -/
structure VkSurfaceFormatKHR where
  format : Nat
  colorSpace : Nat
deriving DecidableEq, Repr

/-- CreateSwapChain, main.cpp lines 609-613: the requested image count is
minImageCount + 1, clamped down to maxImageCount when that bound is
nonzero and exceeded. -/
def swapChainImageCount (caps : SurfaceCapabilities) : Nat :=
  let imageCount := caps.minImageCount + 1
  if caps.maxImageCount > 0 && imageCount > caps.maxImageCount then
    caps.maxImageCount
  else
    imageCount

/-- The uint32 all-ones sentinel std::numeric_limits of uint32_t max,
used by the surface to mean "the client chooses the extent". -/
def UINT32_MAX : Nat := 4294967295

/-- std::clamp on unsigned values: lo if v < lo, hi if hi < v, else v. -/
def stdClamp (v lo hi : Nat) : Nat :=
  if v < lo then lo else if hi < v then hi else v

/-- ChooseSwapExtent, main.cpp lines 577-597: use currentExtent as-is
unless its width is the undefined sentinel, in which case clamp the
window framebuffer size component-wise into the allowed extent range.
The framebuffer size reported by glfwGetFramebufferSize is an explicit
parameter. -/
def ChooseSwapExtent (caps : SurfaceCapabilities) (fbWidth fbHeight : Nat) : Extent2D :=
  if caps.currentExtent.width ≠ UINT32_MAX then
    caps.currentExtent
  else
    { width := stdClamp fbWidth caps.minImageExtent.width caps.maxImageExtent.width
      height := stdClamp fbHeight caps.minImageExtent.height caps.maxImageExtent.height }

/-- The scanning loop of ChooseSwapPresentMode with its bestMode
accumulator: return mailbox as soon as it is seen; remember immediate as
the running fallback; otherwise keep the accumulator. -/
def choosePresentModeLoop : List PresentMode → PresentMode → PresentMode
  | [], best => best
  | m :: rest, best =>
    if m = PresentMode.mailbox then PresentMode.mailbox
    else if m = PresentMode.immediate then choosePresentModeLoop rest PresentMode.immediate
    else choosePresentModeLoop rest best

/-- ChooseSwapPresentMode, main.cpp lines 545-572: scan the available
modes starting from the fifo baseline. -/
def ChooseSwapPresentMode (availablePresentModes : List PresentMode) : PresentMode :=
  choosePresentModeLoop availablePresentModes PresentMode.fifo

/-- The concrete capability snapshot of the end-to-end scenario:
minImageCount 2, maxImageCount 3 (extent fields irrelevant there). -/
def capsTwoThree : SurfaceCapabilities :=
  ⟨2, 3, ⟨800, 600⟩, ⟨1, 1⟩, ⟨4096, 4096⟩⟩

/-- A capability snapshot whose currentExtent width is the undefined
sentinel, with extent bounds [100, 4096] in both components. -/
def capsSentinel : SurfaceCapabilities :=
  ⟨1, 0, ⟨UINT32_MAX, 600⟩, ⟨100, 100⟩, ⟨4096, 4096⟩⟩

example : swapChainImageCount capsTwoThree = 3 := by decide

example : ChooseSwapPresentMode [PresentMode.fifo, PresentMode.mailbox] = PresentMode.mailbox := by
  decide

example : ChooseSwapExtent capsSentinel 50 5000 = ⟨100, 4096⟩ := by decide

/-- One entry of the queue-family table of a physical device, reduced to
the two bits the program reads: the graphics capability flag of
vkGetPhysicalDeviceQueueFamilyProperties and the presentation-support
answer of vkGetPhysicalDeviceSurfaceSupportKHR for the active surface. -/
structure VkQueueFamily where
  supportsGraphics : Bool
  supportsPresent : Bool
deriving DecidableEq, Repr

/-- QueueFamilyIndices from main.cpp lines 33-42. -/
structure QueueFamilyIndices where
  graphicsFamily : Option Nat
  presentFamily : Option Nat
deriving DecidableEq, Repr

/-- IsComplete, main.cpp lines 38-41. -/
def QueueFamilyIndices.IsComplete (q : QueueFamilyIndices) : Bool :=
  q.graphicsFamily.isSome && q.presentFamily.isSome

/-- A physical device as the program observes it through the queries in
IsDeviceSuitable: its queue-family table, its device-extension names,
and the surface formats / present modes reported for the surface. -/
structure PhysicalDevice where
  queueFamilies : List VkQueueFamily
  extensions : List String
  surfaceFormats : List VkSurfaceFormatKHR
  presentModes : List PresentMode
deriving DecidableEq, Repr

/-- g_deviceExtensions, main.cpp line 23: the single swapchain extension. -/
def g_deviceExtensions : List String := ["VK_KHR_swapchain"]

/-- CheckDeviceExtensionSupported, main.cpp lines 464-480: every required
extension name must occur among the device extensions (the code erases
available names from the required set and checks emptiness). -/
def CheckDeviceExtensionSupported (device : PhysicalDevice) : Bool :=
  g_deviceExtensions.all (fun e => device.extensions.contains e)

/-- The loop of FindQueueFamilies, main.cpp lines 361-382: walk the
queue-family table with an index, record the last family seen with each
capability, and break as soon as both are recorded. -/
def findQueueFamiliesLoop : List VkQueueFamily → Nat → QueueFamilyIndices → QueueFamilyIndices
  | [], _, indices => indices
  | qf :: rest, i, indices =>
    let indices1 :=
      if qf.supportsGraphics then { indices with graphicsFamily := some i } else indices
    let indices2 :=
      if qf.supportsPresent then { indices1 with presentFamily := some i } else indices1
    if indices2.IsComplete then indices2 else findQueueFamiliesLoop rest (i + 1) indices2

/-- FindQueueFamilies, main.cpp lines 351-385. -/
def FindQueueFamilies (device : PhysicalDevice) : QueueFamilyIndices :=
  findQueueFamiliesLoop device.queueFamilies 0 ⟨none, none⟩

/-- IsDeviceSuitable, main.cpp lines 324-345: complete queue families,
extension support, and (only queried when extensions are supported)
non-empty surface formats and present modes. -/
def IsDeviceSuitable (device : PhysicalDevice) : Bool :=
  let indices := FindQueueFamilies device
  let extensionsSupported := CheckDeviceExtensionSupported device
  let swapChainAdequate :=
    if extensionsSupported then
      !device.surfaceFormats.isEmpty && !device.presentModes.isEmpty
    else
      false
  indices.IsComplete && extensionsSupported && swapChainAdequate

/-- PickPhysicalDevice, main.cpp lines 292-319: throw when no device is
enumerated, take the first suitable device otherwise, throw when none is
suitable.  Throwing is modelled as Except.error with the message text. -/
def PickPhysicalDevice (devices : List PhysicalDevice) : Except String PhysicalDevice :=
  if devices.isEmpty then
    Except.error ("failed to find GPUs with Vulkan support")
  else
    match devices.find? IsDeviceSuitable with
    | some device => Except.ok device
    | none => Except.error ("failed to find a suitable GPU")

/-- The four eligibility conditions of the design document, stated
semantically: a graphics-capable family exists, a presentation-capable
family exists, the required extension set is supported, and the surface
format and present-mode sets are both non-empty. -/
def DeviceEligible (device : PhysicalDevice) : Prop :=
  (∃ qf ∈ device.queueFamilies, qf.supportsGraphics = true)
  ∧ (∃ qf ∈ device.queueFamilies, qf.supportsPresent = true)
  ∧ (∀ e ∈ g_deviceExtensions, e ∈ device.extensions)
  ∧ device.surfaceFormats ≠ [] ∧ device.presentModes ≠ []

/-- A device offering everything required. -/
def deviceGood : PhysicalDevice :=
  ⟨[⟨true, true⟩], ["VK_KHR_swapchain"], [⟨44, 0⟩], [PresentMode.fifo]⟩

/-- A device with no presentation-capable queue family. -/
def deviceNoPresent : PhysicalDevice :=
  ⟨[⟨true, false⟩], ["VK_KHR_swapchain"], [⟨44, 0⟩], [PresentMode.fifo]⟩

example : IsDeviceSuitable deviceGood = true := by decide
example : IsDeviceSuitable deviceNoPresent = false := by decide
example : PickPhysicalDevice [deviceNoPresent, deviceGood] = Except.ok deviceGood := by rfl

/-- A Vulkan object create/destroy call, tagged with the handle it acts
on.  Swapchain images are owned by the chain (retrieved, not created by
the application) and are destroyed together with it, so they have no
events of their own, exactly as in the code. -/
inductive ResEvent where
  | destroyFramebuffer (h : Nat)
  | destroyImageView (h : Nat)
  | destroySwapchain (h : Nat)
  | createSwapchain (h : Nat)
  | createImageView (h : Nat)
  | createFramebuffer (h : Nat)
deriving DecidableEq, Repr

/-- Whether an event allocates a replacement object. -/
def ResEvent.isCreate : ResEvent → Bool
  | .createSwapchain _ => true
  | .createImageView _ => true
  | .createFramebuffer _ => true
  | _ => false

/-- The handle-holding members of HelloTriangleApplication touched by
swapchain creation and recreation.  Handles are numbered from a fresh
counter; vectors of handles become lists.  As in the code, cleanup does
not null the stored handles: destruction is recorded in the event trace. -/
structure ResState where
  nextHandle : Nat
  swapChain : Nat
  swapChainImages : List Nat
  swapChainImageViews : List Nat
  swapChainFramebuffers : List Nat
  commandBuffers : List Nat
  renderPass : Nat
  pipelineLayout : Nat
  graphicsPipeline : Nat
  commandPool : Nat
deriving DecidableEq, Repr

/-- CreateSwapChain, main.cpp lines 600-673, reduced to its resource
effect: create one chain handle, then retrieve the image list whose
length is whatever count vkGetSwapchainImagesKHR reports (the code
comments note the driver may create more images than requested, so the
actual count is an environment parameter). -/
def CreateSwapChainRes (s : ResState) (actualImageCount : Nat) : ResState × List ResEvent :=
  let chain := s.nextHandle
  let images := List.range' (s.nextHandle + 1) actualImageCount
  ({ s with swapChain := chain
            swapChainImages := images
            nextHandle := s.nextHandle + 1 + actualImageCount },
   [ResEvent.createSwapchain chain])

/-- CreateImageViews, main.cpp lines 677-703: one view per swapchain
image, created in image order. -/
def CreateImageViewsRes (s : ResState) : ResState × List ResEvent :=
  let views := List.range' s.nextHandle s.swapChainImages.length
  ({ s with swapChainImageViews := views
            nextHandle := s.nextHandle + s.swapChainImages.length },
   views.map ResEvent.createImageView)

/-- CreateFramebuffers, main.cpp lines 924-944: one framebuffer per
image view, created in view order. -/
def CreateFramebuffersRes (s : ResState) : ResState × List ResEvent :=
  let fbs := List.range' s.nextHandle s.swapChainImageViews.length
  ({ s with swapChainFramebuffers := fbs
            nextHandle := s.nextHandle + s.swapChainImageViews.length },
   fbs.map ResEvent.createFramebuffer)

/-- CreateCommandBuffers, main.cpp lines 967-981: the command-buffer
vector is resized to the framebuffer count and filled by one allocation
call.  It is invoked once, from InitVulkan, and never from
RecreateSwapChain. -/
def CreateCommandBuffersRes (s : ResState) : ResState :=
  { s with commandBuffers := List.range' s.nextHandle s.swapChainFramebuffers.length
           nextHandle := s.nextHandle + s.swapChainFramebuffers.length }

/-- CleanupSwapChain, main.cpp lines 1183-1196: destroy every
framebuffer, then every image view, then the chain handle, in that
order. -/
def CleanupSwapChainRes (s : ResState) : ResState × List ResEvent :=
  (s,
   s.swapChainFramebuffers.map ResEvent.destroyFramebuffer
     ++ s.swapChainImageViews.map ResEvent.destroyImageView
     ++ [ResEvent.destroySwapchain s.swapChain])

/-- RecreateSwapChain, main.cpp lines 1160-1180, resource effect: after
the minimized-window wait and vkDeviceWaitIdle (neither touches any
handle), run CleanupSwapChain, then CreateSwapChain, CreateImageViews
and CreateFramebuffers.  Command buffers, render pass, pipeline objects
and the command pool are untouched. -/
def RecreateSwapChainRes (s : ResState) (actualImageCount : Nat) : ResState × List ResEvent :=
  let c := CleanupSwapChainRes s
  let a := CreateSwapChainRes c.1 actualImageCount
  let b := CreateImageViewsRes a.1
  let d := CreateFramebuffersRes b.1
  (d.1, c.2 ++ a.2 ++ b.2 ++ d.2)

/-- The resource effect of the InitVulkan sequence from CreateSwapChain
onward (main.cpp lines 87-94): chain, views, render pass, pipeline
layout and pipeline, framebuffers, command pool, command buffers, with
handles issued in call order. -/
def InitVulkanRes (actualImageCount : Nat) : ResState :=
  let s0 : ResState := ⟨1, 0, [], [], [], [], 0, 0, 0, 0⟩
  let s1 := (CreateSwapChainRes s0 actualImageCount).1
  let s2 := (CreateImageViewsRes s1).1
  let s3 := { s2 with renderPass := s2.nextHandle, nextHandle := s2.nextHandle + 1 }
  let s4 := { s3 with pipelineLayout := s3.nextHandle
                      graphicsPipeline := s3.nextHandle + 1
                      nextHandle := s3.nextHandle + 2 }
  let s5 := (CreateFramebuffersRes s4).1
  let s6 := { s5 with commandPool := s5.nextHandle, nextHandle := s5.nextHandle + 1 }
  CreateCommandBuffersRes s6

example : (InitVulkanRes 3).commandBuffers.length = 3 := by decide
example : (InitVulkanRes 3).swapChainImages.length = 3 := by decide
example : ((RecreateSwapChainRes (InitVulkanRes 3) 4).1).swapChainImages.length = 4 := by decide
example : ((RecreateSwapChainRes (InitVulkanRes 3) 4).1).commandBuffers.length = 3 := by decide

/-- MAX_FRAMES_IN_FLIGHT, main.cpp line 18. -/
def MAX_FRAMES_IN_FLIGHT : Nat := 2

/-- The outcome of vkAcquireNextImageKHR as the code distinguishes it. -/
inductive AcquireResult where
  | success
  | suboptimal
  | outOfDate
  | errorOther
deriving DecidableEq, Repr

/-- The outcome of vkQueuePresentKHR as the code distinguishes it. -/
inductive PresentResult where
  | success
  | suboptimal
  | outOfDate
  | errorOther
deriving DecidableEq, Repr

/-- The scheduling state of the frame loop: whether each in-flight fence
is signaled, the slots whose submitted work the GPU has not yet
completed (newest first), the current slot index m_currentFrame, and the
framebuffer-resize flag set by the GLFW callback. -/
structure FrameState where
  fence : Nat → Bool
  outstanding : List Nat
  currentFrame : Nat
  framebufferResized : Bool

/-- The effect of vkDeviceWaitIdle on the scheduling state: every
submitted-but-unfinished frame completes, signaling its fence. -/
def deviceWaitIdleSync (s : FrameState) : FrameState :=
  { s with fence := fun j => if j ∈ s.outstanding then true else s.fence j
           outstanding := [] }

/-- The scheduling effect of RecreateSwapChain (main.cpp lines
1160-1180): the minimized-window wait touches no scheduling state, then
vkDeviceWaitIdle drains the device; the swapchain rebuilds themselves
are modelled in ResState. -/
def recreateSwapChainSync (s : FrameState) : FrameState :=
  deviceWaitIdleSync s

/-- The observable per-iteration actions of DrawFrame, in program order. -/
inductive FrameEvent where
  | recreate
  | resetFence (slot : Nat)
  | resetCommandBuffer (image : Nat)
  | record (image : Nat)
  | submit (slot image : Nat)
  | present (slot image : Nat)
deriving DecidableEq, Repr

/-- DrawFrame after a usable acquire (main.cpp lines 1081-1131): reset
the current slot fence, reset and re-record the command buffer of the
acquired image, submit signaling the slot fence, present, then recreate
the swapchain when the present result is stale or suboptimal or the
resize flag is set (clearing the flag first), throw on any other present
failure, and finally advance m_currentFrame modulo
MAX_FRAMES_IN_FLIGHT. -/
def DrawFrameAfterAcquire (s : FrameState) (imageIndex : Nat) (present : PresentResult) :
    Except String (FrameState × List FrameEvent) :=
  let i := s.currentFrame
  let s1 : FrameState := { s with fence := Function.update s.fence i false }
  let s2 : FrameState := { s1 with outstanding := i :: s1.outstanding }
  let evs : List FrameEvent :=
    [FrameEvent.resetFence i, FrameEvent.resetCommandBuffer imageIndex,
     FrameEvent.record imageIndex, FrameEvent.submit i imageIndex,
     FrameEvent.present i imageIndex]
  if present = PresentResult.outOfDate ∨ present = PresentResult.suboptimal
      ∨ s2.framebufferResized = true then
    let s3 := recreateSwapChainSync { s2 with framebufferResized := false }
    Except.ok ({ s3 with currentFrame := (s3.currentFrame + 1) % MAX_FRAMES_IN_FLIGHT },
      evs ++ [FrameEvent.recreate])
  else if present ≠ PresentResult.success then
    Except.error ("failed to presend swap chain image")
  else
    Except.ok ({ s2 with currentFrame := (s2.currentFrame + 1) % MAX_FRAMES_IN_FLIGHT }, evs)

/-- DrawFrame, main.cpp lines 1055-1132.  The admission wait
(vkWaitForFences on the current slot fence) blocks until that fence is
signaled; it is modelled as the enabling condition of the draw step
below.  The acquire and present outcomes and the acquired image index
are environment parameters.  A stale-swapchain acquire recreates the
chain and returns at once; any other acquire failure throws; success and
suboptimal acquires proceed identically. -/
def DrawFrame (s : FrameState) (acquire : AcquireResult) (imageIndex : Nat)
    (present : PresentResult) : Except String (FrameState × List FrameEvent) :=
  match acquire with
  | AcquireResult.outOfDate => Except.ok (recreateSwapChainSync s, [FrameEvent.recreate])
  | AcquireResult.errorOther => Except.error ("failed to acquire swap chain image")
  | _ => DrawFrameAfterAcquire s imageIndex present

/-- The state after CreateSyncObjects (main.cpp lines 1135-1157): every
fence is created already signaled, nothing is in flight, the frame index
starts at 0 and the resize flag is clear. -/
def initFrameState : FrameState :=
  { fence := fun _ => true, outstanding := [], currentFrame := 0, framebufferResized := false }

/-- One step of the running program: a DrawFrame iteration (enabled only
once the admission wait on the current slot fence can return, i.e. the
fence is signaled), an asynchronous GPU completion of one submitted
frame, or the GLFW resize callback raising the flag. -/
inductive FrameStep : FrameState → FrameState → Prop where
  | draw (s s' : FrameState) (acquire : AcquireResult) (imageIndex : Nat)
      (present : PresentResult) (evs : List FrameEvent)
      (hwait : s.fence s.currentFrame = true)
      (hrun : DrawFrame s acquire imageIndex present = Except.ok (s', evs)) :
      FrameStep s s'
  | gpuComplete (s : FrameState) (j : Nat) (hj : j ∈ s.outstanding) :
      FrameStep s { s with outstanding := s.outstanding.erase j
                           fence := Function.update s.fence j true }
  | resizeFlag (s : FrameState) :
      FrameStep s { s with framebufferResized := true }

/-- The states the frame loop can reach from the freshly created
synchronization objects. -/
def FrameReachable (s : FrameState) : Prop :=
  Relation.ReflTransGen FrameStep initFrameState s

/-- The events of a DrawFrame outcome (empty when it threw). -/
def eventsOf : Except String (FrameState × List FrameEvent) → List FrameEvent
  | Except.ok p => p.2
  | Except.error _ => []

lemma stdClamp_eq_max_min (v lo hi : Nat) (h : lo ≤ hi) :
    stdClamp v lo hi = max lo (min v hi) := by
  unfold stdClamp
  split
  · omega
  · split <;> omega

lemma stdClamp_mem (v lo hi : Nat) (h : lo ≤ hi) :
    lo ≤ stdClamp v lo hi ∧ stdClamp v lo hi ≤ hi := by
  unfold stdClamp
  split
  · omega
  · split <;> omega

/-- C4: for every surface capability snapshot the requested swapchain
image count is min (minImageCount + 1) maxImageCount when a bound
exists (maxImageCount positive) and minImageCount + 1 otherwise; in
particular it is 3 for minImageCount 2, maxImageCount 3. -/
theorem swap_image_count_spec :
    (∀ caps : SurfaceCapabilities,
        swapChainImageCount caps =
          if 0 < caps.maxImageCount then min (caps.minImageCount + 1) caps.maxImageCount
          else caps.minImageCount + 1)
    ∧ swapChainImageCount capsTwoThree = 3 := by
  refine ⟨fun caps => ?_, by decide⟩
  by_cases h1 : 0 < caps.maxImageCount
  · by_cases h2 : caps.minImageCount + 1 > caps.maxImageCount
    · simp [swapChainImageCount, h1, h2]
      omega
    · simp [swapChainImageCount, h1, h2]
      omega
  · simp [swapChainImageCount, h1]

/-- C5: when currentExtent.width is the undefined sentinel, the chosen
extent is the window framebuffer size clamped component-wise into the
interval from minImageExtent to maxImageExtent (so it lies in that
interval); for every other snapshot the chosen extent is currentExtent
unchanged. -/
theorem choose_swap_extent_spec (caps : SurfaceCapabilities) (fbWidth fbHeight : Nat)
    (hW : caps.minImageExtent.width ≤ caps.maxImageExtent.width)
    (hH : caps.minImageExtent.height ≤ caps.maxImageExtent.height) :
    (caps.currentExtent.width = UINT32_MAX →
      ChooseSwapExtent caps fbWidth fbHeight =
          ⟨max caps.minImageExtent.width (min fbWidth caps.maxImageExtent.width),
           max caps.minImageExtent.height (min fbHeight caps.maxImageExtent.height)⟩
        ∧ caps.minImageExtent.width ≤ (ChooseSwapExtent caps fbWidth fbHeight).width
        ∧ (ChooseSwapExtent caps fbWidth fbHeight).width ≤ caps.maxImageExtent.width
        ∧ caps.minImageExtent.height ≤ (ChooseSwapExtent caps fbWidth fbHeight).height
        ∧ (ChooseSwapExtent caps fbWidth fbHeight).height ≤ caps.maxImageExtent.height)
    ∧ (caps.currentExtent.width ≠ UINT32_MAX →
        ChooseSwapExtent caps fbWidth fbHeight = caps.currentExtent) := by
  constructor
  · intro hs
    have e : ChooseSwapExtent caps fbWidth fbHeight =
        ⟨stdClamp fbWidth caps.minImageExtent.width caps.maxImageExtent.width,
         stdClamp fbHeight caps.minImageExtent.height caps.maxImageExtent.height⟩ := by
      simp [ChooseSwapExtent, hs]
    rw [e]
    refine ⟨?_, ?_, ?_, ?_, ?_⟩
    · rw [stdClamp_eq_max_min _ _ _ hW, stdClamp_eq_max_min _ _ _ hH]
    · exact (stdClamp_mem _ _ _ hW).1
    · exact (stdClamp_mem _ _ _ hW).2
    · exact (stdClamp_mem _ _ _ hH).1
    · exact (stdClamp_mem _ _ _ hH).2
  · intro hs
    simp [ChooseSwapExtent, hs]

/-- Witness for the extent theorem at the concrete sentinel snapshot
capsSentinel with an 800 by 600 framebuffer. -/
theorem choose_swap_extent_spec_witness :
    (capsSentinel.currentExtent.width = UINT32_MAX →
      ChooseSwapExtent capsSentinel 800 600 =
          ⟨max capsSentinel.minImageExtent.width (min 800 capsSentinel.maxImageExtent.width),
           max capsSentinel.minImageExtent.height (min 600 capsSentinel.maxImageExtent.height)⟩
        ∧ capsSentinel.minImageExtent.width ≤ (ChooseSwapExtent capsSentinel 800 600).width
        ∧ (ChooseSwapExtent capsSentinel 800 600).width ≤ capsSentinel.maxImageExtent.width
        ∧ capsSentinel.minImageExtent.height ≤ (ChooseSwapExtent capsSentinel 800 600).height
        ∧ (ChooseSwapExtent capsSentinel 800 600).height ≤ capsSentinel.maxImageExtent.height)
    ∧ (capsSentinel.currentExtent.width ≠ UINT32_MAX →
        ChooseSwapExtent capsSentinel 800 600 = capsSentinel.currentExtent) :=
  choose_swap_extent_spec capsSentinel 800 600 (by decide) (by decide)

lemma choosePresentModeLoop_spec (l : List PresentMode) (best : PresentMode) :
    choosePresentModeLoop l best =
      if PresentMode.mailbox ∈ l then PresentMode.mailbox
      else if PresentMode.immediate ∈ l then PresentMode.immediate
      else best := by
  induction l generalizing best with
  | nil => simp [choosePresentModeLoop]
  | cons m rest ih =>
    by_cases h1 : m = PresentMode.mailbox
    · subst h1
      simp [choosePresentModeLoop]
    · by_cases h2 : m = PresentMode.immediate
      · subst h2
        by_cases h3 : PresentMode.mailbox ∈ rest <;>
          simp [choosePresentModeLoop, ih, h1, h3, List.mem_cons]
      · have h1s : ¬ PresentMode.mailbox = m := fun h => h1 h.symm
        have h2s : ¬ PresentMode.immediate = m := fun h => h2 h.symm
        simp [choosePresentModeLoop, h1, h2, ih, List.mem_cons, h1s, h2s]

/-- C6: present-mode selection returns mailbox whenever it is offered,
otherwise immediate whenever that is offered, otherwise the fifo
baseline; for the offered set fifo, mailbox it returns mailbox. -/
theorem choose_present_mode_spec (modes : List PresentMode) (_hne : modes ≠ []) :
    (ChooseSwapPresentMode modes =
        if PresentMode.mailbox ∈ modes then PresentMode.mailbox
        else if PresentMode.immediate ∈ modes then PresentMode.immediate
        else PresentMode.fifo)
    ∧ ChooseSwapPresentMode [PresentMode.fifo, PresentMode.mailbox] = PresentMode.mailbox :=
  ⟨choosePresentModeLoop_spec modes PresentMode.fifo, by decide⟩

/-- Witness for the present-mode theorem at the concrete offered set
fifo, mailbox of the end-to-end scenario. -/
theorem choose_present_mode_spec_witness :
    (ChooseSwapPresentMode [PresentMode.fifo, PresentMode.mailbox] =
        if PresentMode.mailbox ∈ [PresentMode.fifo, PresentMode.mailbox] then PresentMode.mailbox
        else if PresentMode.immediate ∈ [PresentMode.fifo, PresentMode.mailbox] then
          PresentMode.immediate
        else PresentMode.fifo)
    ∧ ChooseSwapPresentMode [PresentMode.fifo, PresentMode.mailbox] = PresentMode.mailbox :=
  choose_present_mode_spec [PresentMode.fifo, PresentMode.mailbox] (by decide)

lemma findQueueFamiliesLoop_isComplete (l : List VkQueueFamily) :
    ∀ (i : Nat) (ind : QueueFamilyIndices),
    (findQueueFamiliesLoop l i ind).IsComplete =
      ((ind.graphicsFamily.isSome || l.any (fun qf => qf.supportsGraphics))
        && (ind.presentFamily.isSome || l.any (fun qf => qf.supportsPresent))) := by
  induction l with
  | nil =>
    intro i ind
    simp [findQueueFamiliesLoop, QueueFamilyIndices.IsComplete]
  | cons qf rest ih =>
    intro i ind
    simp only [findQueueFamiliesLoop, List.any_cons]
    cases hg : qf.supportsGraphics <;> cases hp : qf.supportsPresent <;>
      simp only [hg, hp, if_true, if_false, Bool.false_or, Bool.true_or] <;>
      by_cases hc :
        (QueueFamilyIndices.IsComplete
          (if qf.supportsPresent then
            { (if qf.supportsGraphics then { ind with graphicsFamily := some i } else ind) with
                presentFamily := some i }
          else if qf.supportsGraphics then { ind with graphicsFamily := some i } else ind)) = true <;>
      simp only [hg, hp, if_true, if_false, Bool.false_or, Bool.true_or] at hc <;>
      simp_all [QueueFamilyIndices.IsComplete, ih] <;>
      cases h1 : ind.graphicsFamily.isSome <;> cases h2 : ind.presentFamily.isSome <;>
      simp_all

lemma find?_first {α : Type} (p : α → Bool) :
    ∀ (l : List α) (x : α), l.find? p = some x →
      ∃ l1 l2, l = l1 ++ x :: l2 ∧ p x = true ∧ ∀ y ∈ l1, p y = false := by
  intro l
  induction l with
  | nil =>
    intro x h
    simp [List.find?] at h
  | cons a rest ih =>
    intro x h
    by_cases ha : p a = true
    · rw [List.find?_cons_of_pos _ ha] at h
      obtain rfl : a = x := by injection h
      exact ⟨[], rest, rfl, ha, by simp⟩
    · rw [List.find?_cons_of_neg _ (by simpa using ha)] at h
      obtain ⟨l1, l2, hl, hx, hall⟩ := ih x h
      refine ⟨a :: l1, l2, by simp [hl], hx, ?_⟩
      intro y hy
      rcases List.mem_cons.mp hy with rfl | hy'
      · simpa using ha
      · exact hall y hy'

lemma isDeviceSuitable_iff (d : PhysicalDevice) :
    IsDeviceSuitable d = true ↔ DeviceEligible d := by
  have hqf : (FindQueueFamilies d).IsComplete =
      ((d.queueFamilies.any (fun qf => qf.supportsGraphics))
        && (d.queueFamilies.any (fun qf => qf.supportsPresent))) := by
    have h := findQueueFamiliesLoop_isComplete d.queueFamilies 0 ⟨none, none⟩
    simpa [FindQueueFamilies] using h
  by_cases hext : CheckDeviceExtensionSupported d = true
  · have hext' : ∀ e ∈ g_deviceExtensions, e ∈ d.extensions := by
      intro e he
      have := (List.all_eq_true.mp hext) e he
      simpa [List.elem_iff] using this
    simp only [IsDeviceSuitable, DeviceEligible, hext, hqf, List.any_eq_true,
      List.isEmpty_iff, if_true, Bool.and_eq_true, Bool.not_eq_true', decide_eq_true_eq]
    simp [List.isEmpty_iff]
    tauto
  · have hext' : ¬ ∀ e ∈ g_deviceExtensions, e ∈ d.extensions := by
      intro hc
      exact hext (List.all_eq_true.mpr (fun e he => by
        simpa [List.elem_iff] using hc e he))
    simp [IsDeviceSuitable, DeviceEligible, hext, hext']

/-- C7: a device is suitable exactly when all four eligibility
conditions hold (graphics-capable family, presentation-capable family,
required extensions, non-empty formats and present modes); selection
returns the first suitable device in enumeration order and fails with an
error when no device qualifies. -/
theorem device_selection_spec (devices : List PhysicalDevice) :
    (∀ d : PhysicalDevice, IsDeviceSuitable d = true ↔ DeviceEligible d)
    ∧ (∀ d : PhysicalDevice, PickPhysicalDevice devices = Except.ok d →
        IsDeviceSuitable d = true ∧
          ∃ l1 l2, devices = l1 ++ d :: l2 ∧ ∀ y ∈ l1, IsDeviceSuitable y = false)
    ∧ ((∀ d ∈ devices, IsDeviceSuitable d = false) →
        ∃ msg, PickPhysicalDevice devices = Except.error msg) := by
  refine ⟨fun d => isDeviceSuitable_iff d, ?_, ?_⟩
  · intro d h
    unfold PickPhysicalDevice at h
    split at h
    · exact absurd h (by simp)
    · cases hf : devices.find? IsDeviceSuitable with
      | none => rw [hf] at h; exact absurd h (by simp)
      | some x =>
        rw [hf] at h
        obtain ⟨l1, l2, hl, hx, hall⟩ := find?_first IsDeviceSuitable devices x hf
        have hxd : x = d := by injection h
        rw [hxd] at hl hx
        exact ⟨hx, l1, l2, hl, hall⟩
  · intro hall
    unfold PickPhysicalDevice
    split
    · exact ⟨_, rfl⟩
    · have : devices.find? IsDeviceSuitable = none :=
        List.find?_eq_none.mpr (fun x hx => by simp [hall x hx])
      rw [this]
      exact ⟨_, rfl⟩

/-- Witness for device selection: the concrete two-device enumeration
where the first device lacks a presentation-capable family and the
second offers everything; the second is eligible and is picked first
among the eligible. -/
theorem device_selection_spec_witness :
    (IsDeviceSuitable deviceGood = true ↔ DeviceEligible deviceGood)
    ∧ (IsDeviceSuitable deviceGood = true ∧
        ∃ l1 l2, [deviceNoPresent, deviceGood] = l1 ++ deviceGood :: l2 ∧
          ∀ y ∈ l1, IsDeviceSuitable y = false) :=
  ⟨(device_selection_spec [deviceNoPresent, deviceGood]).1 deviceGood,
   (device_selection_spec [deviceNoPresent, deviceGood]).2.1 deviceGood (by rfl)⟩

/-- C2: an iteration whose acquire reports the stale swapchain result
recreates the swapchain and does nothing else: its event list is exactly
the recreation, with no fence reset, no command-buffer reset or
recording, no submit and no present. -/
theorem acquire_out_of_date_aborts (s : FrameState) (imageIndex : Nat)
    (present : PresentResult) (s' : FrameState) (evs : List FrameEvent)
    (h : DrawFrame s AcquireResult.outOfDate imageIndex present = Except.ok (s', evs)) :
    evs = [FrameEvent.recreate] := by
  simp only [DrawFrame, Except.ok.injEq, Prod.mk.injEq] at h
  exact h.2.symm

/-- Witness for the stale-acquire abort at the freshly created state. -/
theorem acquire_out_of_date_aborts_witness :
    eventsOf (DrawFrame initFrameState AcquireResult.outOfDate 0 PresentResult.success)
      = [FrameEvent.recreate] :=
  acquire_out_of_date_aborts initFrameState 0 PresentResult.success
    (recreateSwapChainSync initFrameState)
    (eventsOf (DrawFrame initFrameState AcquireResult.outOfDate 0 PresentResult.success)) rfl

/-- C10: on the stale-acquire abort path the frame index is not
advanced, the current slot fence stays signaled (the event list shows no
fence reset), so the next iteration retries the same slot and its
admission wait is already satisfied. -/
theorem out_of_date_keeps_slot_state (s : FrameState) (imageIndex : Nat)
    (present : PresentResult) (s' : FrameState) (evs : List FrameEvent)
    (hwait : s.fence s.currentFrame = true)
    (h : DrawFrame s AcquireResult.outOfDate imageIndex present = Except.ok (s', evs)) :
    s'.currentFrame = s.currentFrame
    ∧ s'.fence s'.currentFrame = true
    ∧ FrameEvent.resetFence s.currentFrame ∉ evs := by
  simp only [DrawFrame, Except.ok.injEq, Prod.mk.injEq] at h
  obtain ⟨hs, he⟩ := h
  subst hs
  subst he
  refine ⟨rfl, ?_, by simp⟩
  show (if s.currentFrame ∈ s.outstanding then true else s.fence s.currentFrame) = true
  split
  · rfl
  · exact hwait

/-- Witness for the abort-path slot-state theorem at the fresh state. -/
theorem out_of_date_keeps_slot_state_witness :
    (recreateSwapChainSync initFrameState).currentFrame = initFrameState.currentFrame
    ∧ (recreateSwapChainSync initFrameState).fence
        (recreateSwapChainSync initFrameState).currentFrame = true
    ∧ FrameEvent.resetFence initFrameState.currentFrame ∉ [FrameEvent.recreate] :=
  out_of_date_keeps_slot_state initFrameState 0 PresentResult.success
    (recreateSwapChainSync initFrameState) [FrameEvent.recreate] rfl rfl

/-- C3 as stated fails on the code: a suboptimal acquire followed by a
successful present with the resize flag clear performs no swapchain
recreation in that iteration — the suboptimal acquire outcome is
dropped, not flagged for after presentation. -/
theorem suboptimal_acquire_no_recreate_cex :
    FrameEvent.recreate ∉
      eventsOf (DrawFrame initFrameState AcquireResult.suboptimal 0 PresentResult.success) := by
  decide

/-- C3 amended: the suboptimal acquire outcome is treated identically to
success, raising no flag; recreation after presentation happens exactly
when the present result is stale or suboptimal or the external resize
flag was set. -/
theorem suboptimal_acquire_amended (s : FrameState) (imageIndex : Nat)
    (present : PresentResult) :
    DrawFrame s AcquireResult.suboptimal imageIndex present
      = DrawFrame s AcquireResult.success imageIndex present
    ∧ (∀ s' evs,
        DrawFrame s AcquireResult.suboptimal imageIndex present = Except.ok (s', evs) →
        (FrameEvent.recreate ∈ evs ↔
          (present = PresentResult.outOfDate ∨ present = PresentResult.suboptimal
            ∨ s.framebufferResized = true))) := by
  refine ⟨rfl, ?_⟩
  intro s' evs h
  simp only [DrawFrame, DrawFrameAfterAcquire] at h
  split at h
  · next hc =>
    simp only [Except.ok.injEq, Prod.mk.injEq] at h
    obtain ⟨-, he⟩ := h
    subst he
    simp only [List.mem_append, List.mem_singleton, or_true, true_iff]
    exact hc
  · next hc =>
    split at h
    · exact absurd h (by simp)
    · simp only [Except.ok.injEq, Prod.mk.injEq] at h
      obtain ⟨-, he⟩ := h
      subst he
      constructor
      · intro hmem
        simp at hmem
      · intro hcond
        exact absurd hcond hc

/-- Witness for the amended suboptimal-acquire theorem: a suboptimal
present result after a suboptimal acquire does trigger the post-present
recreation. -/
theorem suboptimal_acquire_amended_witness :
    FrameEvent.recreate ∈
        [FrameEvent.resetFence 0, FrameEvent.resetCommandBuffer 0, FrameEvent.record 0,
         FrameEvent.submit 0 0, FrameEvent.present 0 0, FrameEvent.recreate]
      ↔ (PresentResult.suboptimal = PresentResult.outOfDate
          ∨ PresentResult.suboptimal = PresentResult.suboptimal
          ∨ initFrameState.framebufferResized = true) :=
  (suboptimal_acquire_amended initFrameState 0 PresentResult.suboptimal).2 _
    [FrameEvent.resetFence 0, FrameEvent.resetCommandBuffer 0, FrameEvent.record 0,
     FrameEvent.submit 0 0, FrameEvent.present 0 0, FrameEvent.recreate] rfl

/-- The inductive invariant of the frame loop: the current slot index is
a genuine slot, no slot appears twice among the outstanding submissions,
and every outstanding slot is a genuine slot whose fence is unsignaled
(it was reset at submission and only completion signals it). -/
def FrameInv (s : FrameState) : Prop :=
  s.currentFrame < MAX_FRAMES_IN_FLIGHT
  ∧ s.outstanding.Nodup
  ∧ ∀ j ∈ s.outstanding, j < MAX_FRAMES_IN_FLIGHT ∧ s.fence j = false

lemma frameInv_init : FrameInv initFrameState :=
  ⟨by decide, List.nodup_nil, by simp [initFrameState]⟩

lemma frameInv_recreate (s : FrameState) (h : FrameInv s) :
    FrameInv (recreateSwapChainSync s) :=
  ⟨h.1, List.nodup_nil, by simp [recreateSwapChainSync, deviceWaitIdleSync]⟩

lemma frameInv_afterAcquire (s : FrameState) (imageIndex : Nat) (present : PresentResult)
    (s' : FrameState) (evs : List FrameEvent)
    (hinv : FrameInv s) (hwait : s.fence s.currentFrame = true)
    (h : DrawFrameAfterAcquire s imageIndex present = Except.ok (s', evs)) :
    FrameInv s' := by
  obtain ⟨h1, h2, h3⟩ := hinv
  have hnotmem : s.currentFrame ∉ s.outstanding := by
    intro hmem
    rw [(h3 _ hmem).2] at hwait
    exact Bool.false_ne_true hwait
  simp only [DrawFrameAfterAcquire] at h
  split at h
  · simp only [Except.ok.injEq, Prod.mk.injEq] at h
    obtain ⟨hs, -⟩ := h
    subst hs
    refine ⟨Nat.mod_lt _ (by decide), List.nodup_nil, by simp [recreateSwapChainSync,
      deviceWaitIdleSync]⟩
  · split at h
    · exact absurd h (by simp)
    · simp only [Except.ok.injEq, Prod.mk.injEq] at h
      obtain ⟨hs, -⟩ := h
      subst hs
      refine ⟨Nat.mod_lt _ (by decide), List.Nodup.cons hnotmem h2, ?_⟩
      intro j hj
      rcases List.mem_cons.mp hj with rfl | hj'
      · exact ⟨h1, by simp [Function.update_same]⟩
      · have hne : j ≠ s.currentFrame := by
          intro he
          have hf := (h3 j hj').2
          rw [he, hwait] at hf
          simp at hf
        refine ⟨(h3 j hj').1, ?_⟩
        show Function.update s.fence s.currentFrame false j = false
        rw [Function.update_noteq hne]
        exact (h3 j hj').2

lemma frameInv_drawFrame (s : FrameState) (acquire : AcquireResult) (imageIndex : Nat)
    (present : PresentResult) (s' : FrameState) (evs : List FrameEvent)
    (hinv : FrameInv s) (hwait : s.fence s.currentFrame = true)
    (h : DrawFrame s acquire imageIndex present = Except.ok (s', evs)) :
    FrameInv s' := by
  cases acquire with
  | outOfDate =>
    simp only [DrawFrame, Except.ok.injEq, Prod.mk.injEq] at h
    obtain ⟨hs, -⟩ := h
    subst hs
    exact frameInv_recreate s hinv
  | errorOther => exact absurd h (by simp [DrawFrame])
  | success => exact frameInv_afterAcquire s imageIndex present s' evs hinv hwait h
  | suboptimal => exact frameInv_afterAcquire s imageIndex present s' evs hinv hwait h

lemma frameInv_step (s s' : FrameState) (hs : FrameStep s s') (hinv : FrameInv s) :
    FrameInv s' := by
  cases hs with
  | draw _ acquire imageIndex present evs hwait hrun =>
    exact frameInv_drawFrame s acquire imageIndex present s' evs hinv hwait hrun
  | gpuComplete j hj =>
    obtain ⟨h1, h2, h3⟩ := hinv
    refine ⟨h1, h2.erase j, ?_⟩
    intro k hk
    have hk' := (List.Nodup.mem_erase_iff h2).mp hk
    refine ⟨(h3 k hk'.2).1, ?_⟩
    show Function.update s.fence j true k = false
    rw [Function.update_noteq hk'.1]
    exact (h3 k hk'.2).2
  | resizeFlag => exact hinv

lemma frameInv_reachable (s : FrameState) (h : FrameReachable s) : FrameInv s := by
  induction h with
  | refl => exact frameInv_init
  | tail _ hstep ih => exact frameInv_step _ _ hstep ih

lemma nodup_bounded_length_le (l : List Nat) (hn : l.Nodup)
    (hb : ∀ j ∈ l, j < MAX_FRAMES_IN_FLIGHT) : l.length ≤ MAX_FRAMES_IN_FLIGHT := by
  have hcard : l.toFinset.card = l.length := List.toFinset_card_of_nodup hn
  have hsub : l.toFinset ⊆ Finset.range MAX_FRAMES_IN_FLIGHT := by
    intro x hx
    exact Finset.mem_range.mpr (hb x (List.mem_toFinset.mp hx))
  have hle := Finset.card_le_card hsub
  rw [Finset.card_range] at hle
  omega

/-- C1: in every reachable state of the frame loop the number of frames
submitted but not yet completed is at most MAX_FRAMES_IN_FLIGHT = 2.
The bound comes solely from the admission wait: the draw step is enabled
only when the current slot fence is signaled, and every submission
targets the current slot and unsignals that fence. -/
theorem frames_in_flight_bounded (s : FrameState) (h : FrameReachable s) :
    s.outstanding.length ≤ MAX_FRAMES_IN_FLIGHT := by
  obtain ⟨h1, h2, h3⟩ := frameInv_reachable s h
  exact nodup_bounded_length_le s.outstanding h2 (fun j hj => (h3 j hj).1)

/-- Witness for the in-flight bound at the freshly created state. -/
theorem frames_in_flight_bounded_witness :
    initFrameState.outstanding.length ≤ MAX_FRAMES_IN_FLIGHT :=
  frames_in_flight_bounded initFrameState Relation.ReflTransGen.refl

/-- C8: swapchain recreation destroys every prior framebuffer, then
every prior image view, then the old chain handle, in exactly that
order, before any allocation; every later event of the recreation trace
is an allocation; and the render pass, pipeline layout, graphics
pipeline and command pool handles are left unchanged. -/
theorem recreate_release_order (s : ResState) (actualImageCount : Nat) :
    (∃ creates,
      (RecreateSwapChainRes s actualImageCount).2
        = s.swapChainFramebuffers.map ResEvent.destroyFramebuffer
          ++ s.swapChainImageViews.map ResEvent.destroyImageView
          ++ [ResEvent.destroySwapchain s.swapChain]
          ++ creates
      ∧ ∀ e ∈ creates, e.isCreate = true)
    ∧ (RecreateSwapChainRes s actualImageCount).1.renderPass = s.renderPass
    ∧ (RecreateSwapChainRes s actualImageCount).1.pipelineLayout = s.pipelineLayout
    ∧ (RecreateSwapChainRes s actualImageCount).1.graphicsPipeline = s.graphicsPipeline
    ∧ (RecreateSwapChainRes s actualImageCount).1.commandPool = s.commandPool := by
  refine ⟨?_, rfl, rfl, rfl, rfl⟩
  refine ⟨(CreateSwapChainRes s actualImageCount).2
      ++ (CreateImageViewsRes (CreateSwapChainRes s actualImageCount).1).2
      ++ (CreateFramebuffersRes
            (CreateImageViewsRes (CreateSwapChainRes s actualImageCount).1).1).2, ?_, ?_⟩
  · simp [RecreateSwapChainRes, CleanupSwapChainRes, List.append_assoc]
  · intro e he
    simp only [CreateSwapChainRes, CreateImageViewsRes, CreateFramebuffersRes,
      List.mem_append, List.mem_map, List.mem_singleton] at he
    rcases he with (rfl | ⟨x, -, rfl⟩) | ⟨x, -, rfl⟩ <;> rfl

lemma recreate_commandBuffers (t : ResState) (c : Nat) :
    (RecreateSwapChainRes t c).1.commandBuffers = t.commandBuffers := rfl

lemma recreate_images_length (t : ResState) (c : Nat) :
    (RecreateSwapChainRes t c).1.swapChainImages.length = c := by
  simp [RecreateSwapChainRes, CreateFramebuffersRes, CreateImageViewsRes,
    CreateSwapChainRes, CleanupSwapChainRes]

lemma initVulkanRes_counts (n : Nat) :
    (InitVulkanRes n).commandBuffers.length = n
      ∧ (InitVulkanRes n).swapChainImages.length = n := by
  constructor <;>
    simp [InitVulkanRes, CreateCommandBuffersRes, CreateFramebuffersRes,
      CreateImageViewsRes, CreateSwapChainRes]

lemma foldRecreate_spec (counts : List Nat) :
    ∀ t : ResState,
      ((counts.foldl (fun t c => (RecreateSwapChainRes t c).1) t).commandBuffers
          = t.commandBuffers)
      ∧ ((counts.foldl (fun t c => (RecreateSwapChainRes t c).1) t).swapChainImages.length
          = counts.getLastD t.swapChainImages.length) := by
  induction counts with
  | nil => exact fun t => ⟨rfl, rfl⟩
  | cons c rest ih =>
    intro t
    simp only [List.foldl_cons, List.getLastD_cons]
    refine ⟨?_, ?_⟩
    · rw [(ih _).1, recreate_commandBuffers]
    · rw [(ih _).2, recreate_images_length]

/-- C9 as stated fails on the code: RecreateSwapChain never reallocates
command buffers, and the driver may report a different image count for
the recreated chain (the code itself re-queries the count because more
images than requested are permitted); after initializing with 3 images
and recreating with a chain of 4, there are 3 command buffers for 4
swapchain images. -/
theorem command_buffer_count_cex :
    ¬ ((RecreateSwapChainRes (InitVulkanRes 3) 4).1.commandBuffers.length
        = (RecreateSwapChainRes (InitVulkanRes 3) 4).1.swapChainImages.length) := by
  decide

/-- C9 amended: after initialization the command-buffer count equals the
swapchain image count; recreation leaves the command buffers untouched
while the image list follows the latest recreation, so after any
sequence of recreations the command-buffer count is still the initial
image count and the image count is that of the last recreation — the
equality persists exactly when the two agree. -/
theorem command_buffer_count_after_recreate (n : Nat) (counts : List Nat) :
    ((counts.foldl (fun t c => (RecreateSwapChainRes t c).1) (InitVulkanRes n)).commandBuffers.length
        = n)
    ∧ ((counts.foldl
          (fun t c => (RecreateSwapChainRes t c).1) (InitVulkanRes n)).swapChainImages.length
        = counts.getLastD n) := by
  refine ⟨?_, ?_⟩
  · rw [(foldRecreate_spec counts (InitVulkanRes n)).1, (initVulkanRes_counts n).1]
  · rw [(foldRecreate_spec counts (InitVulkanRes n)).2, (initVulkanRes_counts n).2]
